import Mathlib

/-!
Shallow embedding of the MoonMole lunar-mining simulator
(`components.py` and `simulate.py`).

Conventions of the embedding:
* Python integers are `ℤ`; counters that only ever grow from 0 stay `ℤ`
  to match Python exactly.
* Python's `random.randint(min_mining_hours, max_mining_hours)` calls are
  modelled by an explicit stream `Rng`: `draws n` is the value returned by
  the n-th `randint` call in program order and `pos` counts the calls made
  so far.  (Python additionally raises `ValueError` at draw time when
  `max < min`; no claim depends on that, and no configuration-time check
  exists in the source.)
* Methods that mutate `self` become functions `State → State`; the in-place
  mutation of a station found inside the list passed to
  `Truck.transition_from_inbound` becomes an update of the list at the
  index returned by the scan.
* `print` calls and the `verbose` flags only produce console output, so they
  are dropped; fields that exist only to feed `print` (the back-reference
  `simulation_parameters`, `verbose`) are passed explicitly or dropped.
* Python float division in the efficiency calculations is modelled by exact
  `ℚ` arithmetic plus `round`-half-to-even; `ZeroDivisionError` becomes
  `Except.error`.
-/

namespace MoonMole

/-- `components.TruckStatus`: the five states of a truck. -/
inductive TruckStatus
  | IDLE
  | MINING
  | UNLOADING
  | TRAVELING_TO_MINE
  | TRAVELING_TO_STATION
deriving DecidableEq

/-- `components.StationStatus`: the two states of a station. -/
inductive StationStatus
  | IDLE
  | BUSY
deriving DecidableEq

/-- `components.MiningRun` (a `@dataclass`): the whole-run parameter and
totals bundle.  The last five fields are not declared in the dataclass; they
are attributes added to the instance by
`simulate.initialize_simulation_definition` (and read by `Truck`), so they
are part of the object's state and appear here as fields. -/
structure MiningRun where
  num_stations : ℤ := 0
  num_trucks : ℤ := 0
  run_hours : ℤ := 0
  total_loads_collected : ℤ := 0
  total_load_count : ℤ := 0
  total_idle_truck_time : ℤ := 0
  total_busy_truck_time : ℤ := 0
  total_idle_station_time : ℤ := 0
  total_busy_station_time : ℤ := 0
  verbose_trucks : Bool := false
  verbose_stations : Bool := false
  min_mining_hours : ℤ := 1
  max_mining_hours : ℤ := 5
  slice_time : ℤ := 5
  inbound_travel_time : ℤ := 30
  outbound_travel_time : ℤ := 30
  unloading_time : ℤ := 5
  idle_wait_time : ℤ := 5
deriving DecidableEq

/-- `MiningRun.run_minutes`. -/
def MiningRun.run_minutes (cfg : MiningRun) : ℤ :=
  cfg.run_hours * 60

/-- `MiningRun.run_time_slices`: `self.run_hours * int(60/self.slice_time)`.
Python performs float true division and then `int(...)` truncates toward
zero, which for integer operands of this magnitude is exactly truncated
integer division (`Int.tdiv`).  With `slice_time = 0` Python raises
`ZeroDivisionError`; theorems using this definition only instantiate it
with nonzero `slice_time`. -/
def MiningRun.run_time_slices (cfg : MiningRun) : ℤ :=
  cfg.run_hours * Int.tdiv 60 cfg.slice_time

/-- The pseudo-random source consumed by `random.randint`: `draws n` is the
value of the n-th call in program order, `pos` the number of calls made. -/
structure Rng where
  draws : ℕ → ℤ
  pos : ℕ

/-- `MiningRun.generate_mining_time`:
`random.randint(min_mining_hours, max_mining_hours) * 60`. -/
def MiningRun.generate_mining_time (cfg : MiningRun) (rng : Rng) : ℤ × Rng :=
  (rng.draws rng.pos * 60, ⟨rng.draws, rng.pos + 1⟩)

/-- The truck's `time_logs` dict `{t.name: 0 for t in TruckStatus}`: the key
set is exactly the five truck states (dict creation order IDLE, MINING,
UNLOADING, TRAVELING_TO_MINE, TRAVELING_TO_STATION), so it is a record with
one integer field per state. -/
structure TimeLogs where
  IDLE : ℤ
  MINING : ℤ
  UNLOADING : ℤ
  TRAVELING_TO_MINE : ℤ
  TRAVELING_TO_STATION : ℤ
deriving DecidableEq

/-- Lookup of the `time_logs` dict at a state's name. -/
def TimeLogs.get (tl : TimeLogs) : TruckStatus → ℤ
  | .IDLE => tl.IDLE
  | .MINING => tl.MINING
  | .UNLOADING => tl.UNLOADING
  | .TRAVELING_TO_MINE => tl.TRAVELING_TO_MINE
  | .TRAVELING_TO_STATION => tl.TRAVELING_TO_STATION

/-- Sum of the `time_logs` dict's values over all five states. -/
def TimeLogs.total (tl : TimeLogs) : ℤ :=
  tl.IDLE + tl.MINING + tl.UNLOADING + tl.TRAVELING_TO_MINE + tl.TRAVELING_TO_STATION

/-- `components.Truck`.  `name` and the mutable attributes of `__init__`;
the `verbose` flag and the `simulation_parameters` back-reference are
print-only / passed explicitly. -/
structure Truck where
  name : String
  time_logs : TimeLogs
  state : TruckStatus
  completed_loads : ℤ
  remaining_time : ℤ
  current_cycle_mining_time : ℤ
deriving DecidableEq

/-- `Truck.__init__`: starts MINING with a freshly drawn mining duration,
which is also recorded as `current_cycle_mining_time`. -/
def Truck.init (cfg : MiningRun) (name : String) (rng : Rng) : Truck × Rng :=
  let d := cfg.generate_mining_time rng
  (⟨name, ⟨0, 0, 0, 0, 0⟩, TruckStatus.MINING, 0, d.1, d.1⟩, d.2)

/-- `components.Station`.  `attached_truck` holds the truck passed to
`attach` (the source stores a reference; only its presence and name are ever
read, so a snapshot is observationally equivalent). -/
structure Station where
  name : String
  busy_minutes : ℤ
  idle_minutes : ℤ
  state : StationStatus
  attached_truck : Option Truck
  completed_loads : ℤ
deriving DecidableEq

/-- `Station.__init__`: idle, nothing attached, zero counters. -/
def Station.init (name : String) : Station :=
  ⟨name, 0, 0, StationStatus.IDLE, none, 0⟩

/-- `Station.attach`: record the truck and become BUSY. -/
def Station.attach (s : Station) (truck : Truck) : Station :=
  { s with attached_truck := some truck, state := StationStatus.BUSY }

/-- `Station.release`: become IDLE, count the completed unload, clear the
attached truck. -/
def Station.release (s : Station) : Station :=
  { s with state := StationStatus.IDLE,
           completed_loads := s.completed_loads + 1,
           attached_truck := none }

/-- `Station.cycle`: a BUSY station logs one slice of busy time and is
immediately released; an IDLE station logs one slice of idle time. -/
def Station.cycle (s : Station) (cfg : MiningRun) : Station :=
  if s.state = StationStatus.BUSY then
    ({ s with busy_minutes := s.busy_minutes + cfg.slice_time }).release
  else
    { s with idle_minutes := s.idle_minutes + cfg.slice_time }

/-- `Truck.get_available_station`: scan the station list in order, skipping
BUSY stations, and return the first station that is not BUSY.  The source
returns the station object itself (later mutated in place); since the list
element is updated through that alias, the embedding returns its index.
`self` is only used for printing and is dropped. -/
def Truck.get_available_station : List Station → Option ℕ
  | [] => none
  | s :: ss =>
      if s.state = StationStatus.BUSY then
        (Truck.get_available_station ss).map (· + 1)
      else
        some 0

/-- In-place `station.attach(truck)` on the list element at index `i`. -/
def attachAt (truck : Truck) : List Station → ℕ → List Station
  | [], _ => []
  | s :: ss, 0 => s.attach truck :: ss
  | s :: ss, n + 1 => s :: attachAt truck ss n

/-- `Truck.transition_from_mining`: credit the MINING log with the mining
duration this cycle was entered with, head for the stations. -/
def Truck.transition_from_mining (t : Truck) (cfg : MiningRun) : Truck :=
  { t with
      time_logs := { t.time_logs with
        MINING := t.time_logs.MINING + t.current_cycle_mining_time },
      state := TruckStatus.TRAVELING_TO_STATION,
      remaining_time := cfg.inbound_travel_time }

/-- `Truck.transition_from_inbound`: credit the TRAVELING_TO_STATION log
with the inbound travel duration, then either attach to the first available
station and start UNLOADING, or go IDLE.  The station is attached before
`self.state`/`self.remaining_time` are reassigned, so the recorded truck
snapshot is the pre-update one (observationally irrelevant: only presence
and name of the reference are ever read). -/
def Truck.transition_from_inbound (t : Truck) (cfg : MiningRun)
    (stations : List Station) : Truck × List Station :=
  let t1 := { t with
      time_logs := { t.time_logs with
        TRAVELING_TO_STATION := t.time_logs.TRAVELING_TO_STATION + cfg.inbound_travel_time } }
  match Truck.get_available_station stations with
  | some i =>
      ({ t1 with state := TruckStatus.UNLOADING,
                 remaining_time := cfg.unloading_time },
       attachAt t1 stations i)
  | none =>
      ({ t1 with state := TruckStatus.IDLE,
                 remaining_time := cfg.idle_wait_time },
       stations)

/-- `Truck.transition_from_unloading`: credit the UNLOADING log, count the
load, head back to the mine. -/
def Truck.transition_from_unloading (t : Truck) (cfg : MiningRun) : Truck :=
  { t with
      time_logs := { t.time_logs with
        UNLOADING := t.time_logs.UNLOADING + cfg.unloading_time },
      completed_loads := t.completed_loads + 1,
      state := TruckStatus.TRAVELING_TO_MINE,
      remaining_time := cfg.outbound_travel_time }

/-- `Truck.transition_from_idle`: credit the IDLE log with the idle-wait
duration, then delegate to `transition_from_inbound` (which credits the
TRAVELING_TO_STATION log again, exactly as the source does). -/
def Truck.transition_from_idle (t : Truck) (cfg : MiningRun)
    (stations : List Station) : Truck × List Station :=
  Truck.transition_from_inbound
    { t with
        time_logs := { t.time_logs with
          IDLE := t.time_logs.IDLE + cfg.idle_wait_time } }
    cfg stations

/-- `Truck.transition_from_outbound`: credit the TRAVELING_TO_MINE log,
start MINING with a freshly drawn duration. -/
def Truck.transition_from_outbound (t : Truck) (cfg : MiningRun) (rng : Rng) :
    Truck × Rng :=
  let d := cfg.generate_mining_time rng
  ({ t with
      time_logs := { t.time_logs with
        TRAVELING_TO_MINE := t.time_logs.TRAVELING_TO_MINE + cfg.outbound_travel_time },
      state := TruckStatus.MINING,
      remaining_time := d.1,
      current_cycle_mining_time := d.1 }, d.2)

/-- `Truck.cycle`: with a nonzero remaining-time counter (`if
self.remaining_time:` is a truthiness test), one slice is subtracted and
nothing else happens; with a zero counter the state-indexed transition
runs. -/
def Truck.cycle (t : Truck) (cfg : MiningRun) (stations : List Station)
    (rng : Rng) : Truck × List Station × Rng :=
  if t.remaining_time ≠ 0 then
    ({ t with remaining_time := t.remaining_time - cfg.slice_time }, stations, rng)
  else
    match t.state with
    | TruckStatus.MINING =>
        (t.transition_from_mining cfg, stations, rng)
    | TruckStatus.TRAVELING_TO_STATION =>
        let p := t.transition_from_inbound cfg stations
        (p.1, p.2, rng)
    | TruckStatus.UNLOADING =>
        (t.transition_from_unloading cfg, stations, rng)
    | TruckStatus.IDLE =>
        let p := t.transition_from_idle cfg stations
        (p.1, p.2, rng)
    | TruckStatus.TRAVELING_TO_MINE =>
        let p := t.transition_from_outbound cfg rng
        (p.1, stations, p.2)

/-! ## The scheduler (`simulate.py`) -/

/-- The command-line parameter object built by `simulate.parse_args`
(the fields `run_simulation` and friends actually read). -/
structure Args where
  run_hours : ℤ
  truck_count : ℤ
  station_count : ℤ
  verbose_trucks : Bool
  verbose_stations : Bool

/-- `simulate.initialize_simulation_definition`: instantiate `MiningRun`
from the command-line values (all other dataclass fields keep their
defaults), then set the customer-design constants on the instance.
No value is checked or rejected. -/
def initialize_simulation_definition (args : Args) : MiningRun :=
  { num_stations := args.station_count
    num_trucks := args.truck_count
    run_hours := args.run_hours
    verbose_trucks := args.verbose_trucks
    verbose_stations := args.verbose_stations
    inbound_travel_time := 30
    outbound_travel_time := 30
    unloading_time := 5
    idle_wait_time := 5
    slice_time := 5 }

/-- Helper for `initialize_trucks`: build `n` trucks named
`truck 0, truck 1, ...` starting at index `i`, threading the RNG
(each `Truck.__init__` draws one mining time). -/
def initialize_trucks_from (cfg : MiningRun) : ℕ → ℕ → Rng → List Truck × Rng
  | 0, _, rng => ([], rng)
  | n + 1, i, rng =>
      let p := Truck.init cfg ("truck " ++ toString i) rng
      let q := initialize_trucks_from cfg n (i + 1) p.2
      (p.1 :: q.1, q.2)

/-- `simulate.initialize_trucks`: `range(num_trucks)` trucks
(`range` of a non-positive count is empty). -/
def initialize_trucks (cfg : MiningRun) (rng : Rng) : List Truck × Rng :=
  initialize_trucks_from cfg cfg.num_trucks.toNat 0 rng

/-- `simulate.initialize_unloading_stations`: `range(num_stations)`
stations named `station 0, station 1, ...`. -/
def initialize_unloading_stations (cfg : MiningRun) : List Station :=
  (List.range cfg.num_stations.toNat).map
    (fun i => Station.init ("station " ++ toString i))

/-- The truck half of one scheduler tick: cycle every truck in list order,
threading the (possibly attach-updated) station list and the RNG. -/
def cycleTrucks (cfg : MiningRun) :
    List Truck → List Station → Rng → List Truck × List Station × Rng
  | [], stations, rng => ([], stations, rng)
  | t :: ts, stations, rng =>
      let p := t.cycle cfg stations rng
      let q := cycleTrucks cfg ts p.2.1 p.2.2
      (p.1 :: q.1, q.2)

/-- The mutable state the scheduler loop threads from tick to tick. -/
structure TickState where
  stations : List Station
  trucks : List Truck
  rng : Rng

/-- One tick of `simulate.run_simulation`'s loop body: first cycle every
station (so busy stations are idled before trucks act), then cycle every
truck in order. -/
def simTick (cfg : MiningRun) (st : TickState) : TickState :=
  let stations := st.stations.map (fun s => s.cycle cfg)
  let p := cycleTrucks cfg st.trucks stations st.rng
  ⟨p.2.1, p.1, p.2.2⟩

/-- The scheduler state after `n` ticks. -/
def runTicks (cfg : MiningRun) (st : TickState) : ℕ → TickState
  | 0 => st
  | n + 1 => simTick cfg (runTicks cfg st n)

/-- How many trucks are in a given state (the truck contributions to the
per-tick `Counter`; the source increments the counter right after each
truck's own cycle, and no later truck's cycle can change an earlier truck's
state, so counting after the loop is the same). -/
def countTrucks (trucks : List Truck) (s : TruckStatus) : ℕ :=
  (trucks.filter (fun t => t.state = s)).length

/-- How many stations are in a given state (the station contributions to
the per-tick `Counter`, taken in the third pass of the loop body). -/
def countStations (stations : List Station) (s : StationStatus) : ℕ :=
  (stations.filter (fun st => st.state = s)).length

/-- One data row of the time-slice report: the tick index followed by the
seven occurrence counts in `TIME_SLICE_REPORT_ORDER` (MINING,
TRAVELING_TO_STATION, IDLE, UNLOADING, TRAVELING_TO_MINE, station BUSY,
station IDLE); absent categories are recorded as 0, which is what counting
gives. -/
def slice_report_line (idx : ℕ) (trucks : List Truck)
    (stations : List Station) : List ℤ :=
  [(idx : ℤ),
   countTrucks trucks TruckStatus.MINING,
   countTrucks trucks TruckStatus.TRAVELING_TO_STATION,
   countTrucks trucks TruckStatus.IDLE,
   countTrucks trucks TruckStatus.UNLOADING,
   countTrucks trucks TruckStatus.TRAVELING_TO_MINE,
   countStations stations StationStatus.BUSY,
   countStations stations StationStatus.IDLE]

/-- The data rows appended by the first `n` ticks: row `i` is the census of
the state right after tick `i` (0-based). -/
def time_slice_rows (cfg : MiningRun) (st : TickState) (n : ℕ) :
    List (List ℤ) :=
  (List.range n).map (fun i =>
    let sti := runTicks cfg st (i + 1)
    slice_report_line i sti.trucks sti.stations)

/-- `simulate.run_simulation`: run `run_time_slices()` ticks
(`range` of a non-positive value is empty) and return the data rows of the
time-slice report.  The two constant header rows of the source's report
list are presentation and are omitted. -/
def run_simulation (cfg : MiningRun) (stations : List Station)
    (trucks : List Truck) (rng : Rng) : List (List ℤ) :=
  time_slice_rows cfg ⟨stations, trucks, rng⟩ cfg.run_time_slices.toNat

/-- `simulate.simulation`, up to the engine's outputs: initialize trucks
(drawing from the RNG) and stations, then run the simulation. -/
def simulation_pipeline (args : Args) (rng : Rng) : List (List ℤ) :=
  let cfg := initialize_simulation_definition args
  let p := initialize_trucks cfg rng
  let stations := initialize_unloading_stations cfg
  run_simulation cfg stations p.1 p.2

/-! ## Efficiency percentages (`MiningRun.generate_*_efficiency`) -/

/-- Python 3 `round` on the exact value: round half to even. -/
def pyRound (q : ℚ) : ℤ :=
  if q - ⌊q⌋ < 1 / 2 then ⌊q⌋
  else if 1 / 2 < q - ⌊q⌋ then ⌊q⌋ + 1
  else if 2 ∣ ⌊q⌋ then ⌊q⌋ else ⌊q⌋ + 1

/-- `MiningRun.generate_truck_efficiency`:
`round(100 * (total_busy_truck_time / num_trucks) / run_minutes())`.
Python float division raises `ZeroDivisionError` on a zero divisor,
modelled by `Except.error`; the float arithmetic itself is modelled
exactly over `ℚ`. -/
def MiningRun.generate_truck_efficiency (cfg : MiningRun) : Except String ℤ :=
  if cfg.num_trucks = 0 then Except.error "ZeroDivisionError"
  else if cfg.run_minutes = 0 then Except.error "ZeroDivisionError"
  else Except.ok (pyRound
    (100 * ((cfg.total_busy_truck_time : ℚ) / (cfg.num_trucks : ℚ) /
      (cfg.run_minutes : ℚ))))

/-- `MiningRun.generate_station_efficiency`:
`round(100 * (total_busy_station_time / num_stations) / run_minutes())`,
with `ZeroDivisionError` modelled by `Except.error`. -/
def MiningRun.generate_station_efficiency (cfg : MiningRun) : Except String ℤ :=
  if cfg.num_stations = 0 then Except.error "ZeroDivisionError"
  else if cfg.run_minutes = 0 then Except.error "ZeroDivisionError"
  else Except.ok (pyRound
    (100 * ((cfg.total_busy_station_time : ℚ) / (cfg.num_stations : ℚ) /
      (cfg.run_minutes : ℚ))))

/-! ## Derived observers and spec-side vocabulary used by the theorems -/

/-- Spec §3 invariant: `attached_truck` is non-null iff the station is
BUSY. -/
def stationInv (s : Station) : Prop :=
  s.attached_truck.isSome = true ↔ s.state = StationStatus.BUSY

instance (s : Station) : Decidable (stationInv s) := by
  unfold stationInv; infer_instance

/-- An arbitrary operation on one station, for quantifying over "any
sequence of attach, release, and cycle operations". -/
inductive StationOp
  | attach (truck : Truck)
  | release
  | cycle

/-- Apply one `StationOp`. -/
def Station.applyOp (s : Station) (cfg : MiningRun) : StationOp → Station
  | StationOp.attach truck => s.attach truck
  | StationOp.release => s.release
  | StationOp.cycle => s.cycle cfg

/-- Apply a sequence of `StationOp`s in order. -/
def applyOps (cfg : MiningRun) (s : Station) (ops : List StationOp) : Station :=
  ops.foldl (fun s op => s.applyOp cfg op) s

/-- Spec-side description of the station scan (§4.1: "scan the station
list in creation order; return the first station whose state is IDLE"):
the index of the first IDLE station. -/
def firstIdleStation : List Station → Option ℕ
  | [] => none
  | s :: ss =>
      if s.state = StationStatus.IDLE then some 0
      else (firstIdleStation ss).map (· + 1)

/-- The duration the truck's current state was entered with (§4.1 table:
`current_cycle_mining_time` for MINING, the fixed configured duration for
every other state). -/
def Truck.entered_duration (t : Truck) (cfg : MiningRun) : ℤ :=
  match t.state with
  | TruckStatus.MINING => t.current_cycle_mining_time
  | TruckStatus.TRAVELING_TO_STATION => cfg.inbound_travel_time
  | TruckStatus.UNLOADING => cfg.unloading_time
  | TruckStatus.IDLE => cfg.idle_wait_time
  | TruckStatus.TRAVELING_TO_MINE => cfg.outbound_travel_time

/-- C10's hypothesis: the slice is positive and every configured duration
and every drawn mining duration is a non-negative multiple of the slice. -/
def durationsAligned (cfg : MiningRun) (draws : ℕ → ℤ) : Prop :=
  0 < cfg.slice_time ∧
  (0 ≤ cfg.inbound_travel_time ∧ cfg.slice_time ∣ cfg.inbound_travel_time) ∧
  (0 ≤ cfg.outbound_travel_time ∧ cfg.slice_time ∣ cfg.outbound_travel_time) ∧
  (0 ≤ cfg.unloading_time ∧ cfg.slice_time ∣ cfg.unloading_time) ∧
  (0 ≤ cfg.idle_wait_time ∧ cfg.slice_time ∣ cfg.idle_wait_time) ∧
  ∀ n, 0 ≤ draws n * 60 ∧ cfg.slice_time ∣ draws n * 60

/-- C10's conclusion about one truck: the remaining-time counter is a
non-negative multiple of the slice. -/
def remainingAligned (cfg : MiningRun) (t : Truck) : Prop :=
  0 ≤ t.remaining_time ∧ cfg.slice_time ∣ t.remaining_time

instance (cfg : MiningRun) (t : Truck) : Decidable (remainingAligned cfg t) := by
  unfold remainingAligned; infer_instance

/-- A small concrete configuration for evaluated counterexamples and
witnesses: 1 truck, 1 station, a 1-hour run, the shipped constants. -/
def exampleCfg : MiningRun :=
  initialize_simulation_definition ⟨1, 1, 1, false, false⟩

/-- A concrete RNG whose every `randint` draw is 1 (so every drawn mining
duration is 60 minutes). -/
def exampleRng : Rng := ⟨fun _ => 1, 0⟩

/-- The scheduler state of `exampleCfg` right after initialization. -/
def exampleState : TickState :=
  let p := initialize_trucks exampleCfg exampleRng
  ⟨initialize_unloading_stations exampleCfg, p.1, p.2⟩

/-! ## C3: station attach/cycle behavior -/

/-- C3: `attach` sets BUSY and records the truck; `cycle` of a BUSY station
adds one slice to busy-minutes and immediately releases (IDLE, unload count
+1, attached cleared) — so an attached station is busy for exactly one tick
(last conjunct: attach followed by one cycle); `cycle` of an IDLE station
adds one slice to idle-minutes and changes nothing else. -/
theorem C3_station_attach_cycle (cfg : MiningRun) (s : Station) (truck : Truck) :
    s.attach truck
      = { s with state := StationStatus.BUSY, attached_truck := some truck } ∧
    (s.state = StationStatus.BUSY →
      s.cycle cfg
        = { s with busy_minutes := s.busy_minutes + cfg.slice_time,
                   state := StationStatus.IDLE,
                   completed_loads := s.completed_loads + 1,
                   attached_truck := none }) ∧
    (s.state = StationStatus.IDLE →
      s.cycle cfg = { s with idle_minutes := s.idle_minutes + cfg.slice_time }) ∧
    (s.attach truck).cycle cfg
      = { s with busy_minutes := s.busy_minutes + cfg.slice_time,
                 state := StationStatus.IDLE,
                 completed_loads := s.completed_loads + 1,
                 attached_truck := none } := by
  refine ⟨rfl, ?_, ?_, ?_⟩
  · intro h
    simp [Station.cycle, Station.release, h]
  · intro h
    simp [Station.cycle, h]
  · simp [Station.attach, Station.cycle, Station.release]

/-- Witness for C3 at a concrete station: one cycle of a BUSY station and
one cycle of a fresh IDLE station. -/
theorem C3_station_attach_cycle_witness :
    ({ Station.init "s0" with state := StationStatus.BUSY } : Station).cycle exampleCfg
      = { ({ Station.init "s0" with state := StationStatus.BUSY } : Station) with
            busy_minutes :=
              ({ Station.init "s0" with state := StationStatus.BUSY } : Station).busy_minutes
                + exampleCfg.slice_time,
            state := StationStatus.IDLE,
            completed_loads :=
              ({ Station.init "s0" with state := StationStatus.BUSY } : Station).completed_loads + 1,
            attached_truck := none } ∧
    (Station.init "s0").cycle exampleCfg
      = { Station.init "s0" with
            idle_minutes := (Station.init "s0").idle_minutes + exampleCfg.slice_time } :=
  ⟨(C3_station_attach_cycle exampleCfg
      { Station.init "s0" with state := StationStatus.BUSY }
      (Truck.init exampleCfg "t0" exampleRng).1).2.1 rfl,
   (C3_station_attach_cycle exampleCfg (Station.init "s0")
      (Truck.init exampleCfg "t0" exampleRng).1).2.2.1 rfl⟩

/-! ## C4: attached-truck iff BUSY invariant -/

theorem stationInv_attach (s : Station) (truck : Truck) :
    stationInv (s.attach truck) := by
  simp [stationInv, Station.attach]

theorem stationInv_release (s : Station) : stationInv s.release := by
  simp [stationInv, Station.release]

theorem stationInv_cycle (cfg : MiningRun) (s : Station) (h : stationInv s) :
    stationInv (s.cycle cfg) := by
  unfold Station.cycle
  split
  · exact stationInv_release _
  · simpa [stationInv] using h

theorem stationInv_applyOp (cfg : MiningRun) (s : Station) (op : StationOp)
    (h : stationInv s) : stationInv (s.applyOp cfg op) := by
  cases op with
  | attach truck => exact stationInv_attach s truck
  | release => exact stationInv_release s
  | cycle => exact stationInv_cycle cfg s h

theorem stationInv_applyOps (cfg : MiningRun) (ops : List StationOp) :
    ∀ s : Station, stationInv s → stationInv (applyOps cfg s ops) := by
  induction ops with
  | nil => intro s h; exact h
  | cons op ops ih =>
      intro s h
      exact ih _ (stationInv_applyOp cfg s op h)

theorem stationInv_attachAt (truck : Truck) :
    ∀ (ss : List Station) (i : ℕ), (∀ s ∈ ss, stationInv s) →
      ∀ s ∈ attachAt truck ss i, stationInv s := by
  intro ss
  induction ss with
  | nil => intro i _ s hs; simp [attachAt] at hs
  | cons s0 ss ih =>
      intro i h x hx
      cases i with
      | zero =>
          rcases List.mem_cons.mp hx with hx | hx
          · subst hx; exact stationInv_attach _ _
          · exact h x (List.mem_cons_of_mem _ hx)
      | succ i =>
          rcases List.mem_cons.mp hx with hx | hx
          · subst hx; exact h x (List.mem_cons_self x ss)
          · exact ih i (fun y hy => h y (List.mem_cons_of_mem _ hy)) x hx

theorem stationInv_transition_from_inbound (t : Truck) (cfg : MiningRun)
    (ss : List Station) (h : ∀ s ∈ ss, stationInv s) :
    ∀ s ∈ (t.transition_from_inbound cfg ss).2, stationInv s := by
  unfold Truck.transition_from_inbound
  cases hgs : Truck.get_available_station ss with
  | none => simpa [hgs] using h
  | some i =>
      simpa [hgs] using stationInv_attachAt _ ss i h

theorem stationInv_truck_cycle (cfg : MiningRun) (t : Truck) (ss : List Station)
    (rng : Rng) (h : ∀ s ∈ ss, stationInv s) :
    ∀ s ∈ (t.cycle cfg ss rng).2.1, stationInv s := by
  unfold Truck.cycle
  split
  · simpa using h
  · cases t.state
    · simpa [Truck.transition_from_idle] using
        stationInv_transition_from_inbound _ cfg ss h
    · simpa using h
    · simpa using h
    · simpa using h
    · simpa using stationInv_transition_from_inbound t cfg ss h

theorem stationInv_cycleTrucks (cfg : MiningRun) :
    ∀ (ts : List Truck) (ss : List Station) (rng : Rng),
      (∀ s ∈ ss, stationInv s) →
      ∀ s ∈ (cycleTrucks cfg ts ss rng).2.1, stationInv s := by
  intro ts
  induction ts with
  | nil => intro ss rng h; simpa [cycleTrucks] using h
  | cons t ts ih =>
      intro ss rng h
      simpa [cycleTrucks] using
        ih _ _ (stationInv_truck_cycle cfg t ss rng h)

theorem stationInv_simTick (cfg : MiningRun) (st : TickState)
    (h : ∀ s ∈ st.stations, stationInv s) :
    ∀ s ∈ (simTick cfg st).stations, stationInv s := by
  unfold simTick
  refine stationInv_cycleTrucks cfg st.trucks _ st.rng ?_
  intro s hs
  rcases List.mem_map.mp hs with ⟨s0, hs0, rfl⟩
  exact stationInv_cycle cfg s0 (h s0 hs0)

/-- C4: starting from the initial IDLE state, any sequence of attach,
release, and cycle operations preserves "attached-truck is non-null iff
BUSY"; and the invariant also holds for every station after every tick of
a scheduler run whose stations initially satisfy it. -/
theorem C4_attached_iff_busy (cfg : MiningRun) (name : String)
    (ops : List StationOp) (st : TickState) (N : ℕ)
    (h : ∀ s ∈ st.stations, stationInv s) :
    stationInv (applyOps cfg (Station.init name) ops) ∧
    ∀ s ∈ (runTicks cfg st N).stations, stationInv s := by
  constructor
  · exact stationInv_applyOps cfg ops _ (by simp [stationInv, Station.init])
  · induction N with
    | zero => exact h
    | succ n ih => exact stationInv_simTick cfg _ ih

/-- Witness for C4: a concrete operation sequence from a fresh station, and
two scheduler ticks of the one-truck/one-station example run. -/
theorem C4_attached_iff_busy_witness :
    stationInv (applyOps exampleCfg (Station.init "s0")
      [StationOp.attach (Truck.init exampleCfg "t0" exampleRng).1,
       StationOp.cycle, StationOp.cycle,
       StationOp.attach (Truck.init exampleCfg "t0" exampleRng).1,
       StationOp.release]) ∧
    ∀ s ∈ (runTicks exampleCfg exampleState 2).stations, stationInv s :=
  C4_attached_iff_busy exampleCfg "s0" _ exampleState 2 (by decide)

/-! ## C10: the remaining-time counter stays a non-negative multiple of the
slice -/

theorem truck_cycle_rng_draws (cfg : MiningRun) (t : Truck) (ss : List Station)
    (rng : Rng) : (t.cycle cfg ss rng).2.2.draws = rng.draws := by
  unfold Truck.cycle
  split
  · rfl
  · cases t.state <;> rfl

theorem transition_from_inbound_remaining (t : Truck) (cfg : MiningRun)
    (ss : List Station) :
    (t.transition_from_inbound cfg ss).1.remaining_time = cfg.unloading_time ∨
    (t.transition_from_inbound cfg ss).1.remaining_time = cfg.idle_wait_time := by
  unfold Truck.transition_from_inbound
  cases Truck.get_available_station ss <;> simp

theorem remainingAligned_truck_cycle (cfg : MiningRun) (t : Truck)
    (ss : List Station) (rng : Rng) (hd : durationsAligned cfg rng.draws)
    (ht : remainingAligned cfg t) :
    remainingAligned cfg (t.cycle cfg ss rng).1 := by
  obtain ⟨hslice, hin, hout, hun, hid, hdr⟩ := hd
  obtain ⟨h0, hdvd⟩ := ht
  unfold Truck.cycle
  split
  · rename_i hne
    have hpos : 0 < t.remaining_time := lt_of_le_of_ne h0 (Ne.symm hne)
    have hle := Int.le_of_dvd hpos hdvd
    exact ⟨by simp; omega, by simpa using dvd_sub hdvd dvd_rfl⟩
  · cases t.state
    · rcases transition_from_inbound_remaining _ cfg ss with h | h <;>
        simp only [Truck.transition_from_idle] at * <;>
        rw [remainingAligned] <;> rw [h]
      · exact hun
      · exact hid
    · exact ⟨by simpa [Truck.transition_from_mining] using hin.1,
             by simpa [Truck.transition_from_mining] using hin.2⟩
    · exact ⟨by simpa [Truck.transition_from_unloading] using hout.1,
             by simpa [Truck.transition_from_unloading] using hout.2⟩
    · exact ⟨by simpa [Truck.transition_from_outbound,
                  MiningRun.generate_mining_time] using (hdr rng.pos).1,
             by simpa [Truck.transition_from_outbound,
                  MiningRun.generate_mining_time] using (hdr rng.pos).2⟩
    · rcases transition_from_inbound_remaining t cfg ss with h | h <;>
        rw [remainingAligned] <;> rw [h]
      · exact hun
      · exact hid

theorem cycleTrucks_rng_draws (cfg : MiningRun) :
    ∀ (ts : List Truck) (ss : List Station) (rng : Rng),
      (cycleTrucks cfg ts ss rng).2.2.draws = rng.draws := by
  intro ts
  induction ts with
  | nil => intro ss rng; rfl
  | cons t ts ih =>
      intro ss rng
      simp only [cycleTrucks]
      rw [ih, truck_cycle_rng_draws]

theorem remainingAligned_cycleTrucks (cfg : MiningRun) :
    ∀ (ts : List Truck) (ss : List Station) (rng : Rng),
      durationsAligned cfg rng.draws →
      (∀ t ∈ ts, remainingAligned cfg t) →
      ∀ t ∈ (cycleTrucks cfg ts ss rng).1, remainingAligned cfg t := by
  intro ts
  induction ts with
  | nil => intro ss rng _ _ t ht; simp [cycleTrucks] at ht
  | cons t0 ts ih =>
      intro ss rng hd h t ht
      simp only [cycleTrucks] at ht
      rcases List.mem_cons.mp ht with rfl | ht
      · exact remainingAligned_truck_cycle cfg t0 ss rng hd
          (h t0 (List.mem_cons_self t0 ts))
      · refine ih _ _ ?_ (fun y hy => h y (List.mem_cons_of_mem _ hy)) t ht
        rwa [truck_cycle_rng_draws]

theorem simTick_rng_draws (cfg : MiningRun) (st : TickState) :
    (simTick cfg st).rng.draws = st.rng.draws := by
  unfold simTick
  exact cycleTrucks_rng_draws cfg st.trucks _ st.rng

theorem runTicks_rng_draws (cfg : MiningRun) (st : TickState) (N : ℕ) :
    (runTicks cfg st N).rng.draws = st.rng.draws := by
  induction N with
  | zero => rfl
  | succ n ih => rw [runTicks, simTick_rng_draws, ih]

/-- C10: if the slice is positive and every configured duration and every
drawn mining duration is a non-negative multiple of the slice, then after
any number of scheduler ticks every truck's remaining-time counter is a
non-negative multiple of the slice; in particular the counter never becomes
negative and the source's truthiness test (`if self.remaining_time:`,
i.e. nonzero) coincides with the spec's `counter > 0` test. -/
theorem C10_remaining_nonneg_multiple (cfg : MiningRun) (st : TickState) (N : ℕ)
    (hd : durationsAligned cfg st.rng.draws)
    (ht : ∀ t ∈ st.trucks, remainingAligned cfg t) :
    ∀ t ∈ (runTicks cfg st N).trucks,
      remainingAligned cfg t ∧ (t.remaining_time ≠ 0 ↔ 0 < t.remaining_time) := by
  have main : ∀ t ∈ (runTicks cfg st N).trucks, remainingAligned cfg t := by
    induction N with
    | zero => exact ht
    | succ n ih =>
        rw [runTicks]
        unfold simTick
        intro t htm
        refine remainingAligned_cycleTrucks cfg (runTicks cfg st n).trucks _
          (runTicks cfg st n).rng ?_ ih t htm
        rwa [runTicks_rng_draws]
  intro t htm
  refine ⟨main t htm, ?_⟩
  have h0 := (main t htm).1
  omega

/-- Witness for C10: the shipped configuration (slice 5, travel 30/30,
unloading 5, idle wait 5) with all mining draws equal to 1 (60 minutes),
run for three ticks from the freshly initialized state. -/
theorem C10_remaining_nonneg_multiple_witness :
    ((runTicks exampleCfg exampleState 3).trucks.all
      (fun t => decide (remainingAligned exampleCfg t) &&
        (decide (t.remaining_time ≠ 0) == decide (0 < t.remaining_time))))
      = true := by
  have h := C10_remaining_nonneg_multiple exampleCfg exampleState 3
    (by
      have hdr : exampleState.rng.draws = fun _ => (1 : ℤ) := rfl
      unfold durationsAligned
      refine ⟨by decide, ⟨by decide, by decide⟩, ⟨by decide, by decide⟩,
        ⟨by decide, by decide⟩, ⟨by decide, by decide⟩, ?_⟩
      intro n
      rw [hdr]
      exact ⟨by norm_num,
        by norm_num [exampleCfg, initialize_simulation_definition]⟩)
    (by decide)
  rw [List.all_eq_true]
  intro t htm
  rw [Bool.and_eq_true, beq_iff_eq]
  exact ⟨decide_eq_true (h t htm).1, decide_eq_decide.mpr (h t htm).2⟩

/-! ## C1: per-state cumulative minutes accounting -/

/-- C1 counterexample: in the shipped 1-truck/1-station configuration with
every mining draw equal to 60 minutes, after the scheduler has run N = 1
tick the only truck's `time_logs` values sum to 0, not
N × slice_minutes = 5: a decrement tick credits nothing to the logs. -/
theorem C1_counterexample :
    ((runTicks exampleCfg exampleState 1).trucks.map
        (fun t => t.time_logs.total)) = [0] ∧
    (0 : ℤ) ≠ 1 * exampleCfg.slice_time := by
  constructor
  · decide
  · decide

/-- C1 amended: what the code actually guarantees per tick.  A cycle call
with a nonzero counter leaves the log total unchanged (the tick's slice is
only credited later, all at once, by the transition tick); a cycle call
with a zero counter grows the log total by exactly the duration the
current state was entered with, plus additionally the inbound travel
duration when the state being left is IDLE (`transition_from_idle`
delegates to `transition_from_inbound`, which credits the
TRAVELING_TO_STATION log again).  Hence the sum of the per-state cumulative
minutes after N ticks is the total of the credited visit durations, not
N × slice_minutes. -/
theorem C1_amended_log_total_per_tick (cfg : MiningRun) (t : Truck)
    (stations : List Station) (rng : Rng) :
    (t.cycle cfg stations rng).1.time_logs.total =
      if t.remaining_time ≠ 0 then t.time_logs.total
      else t.time_logs.total + t.entered_duration cfg +
        (if t.state = TruckStatus.IDLE then cfg.inbound_travel_time else 0) := by
  unfold Truck.cycle
  split
  · rename_i h
    simp [h]
  · rename_i h
    simp only [h, if_neg (by simp : ¬(0 : ℤ) ≠ 0)]
    cases ht : t.state
    · unfold Truck.transition_from_idle Truck.transition_from_inbound
      cases Truck.get_available_station stations <;>
        simp [ht, TimeLogs.total, Truck.entered_duration] <;> ring
    · simp [Truck.transition_from_mining, ht, TimeLogs.total,
        Truck.entered_duration] ; ring
    · simp [Truck.transition_from_unloading, ht, TimeLogs.total,
        Truck.entered_duration] ; ring
    · simp [Truck.transition_from_outbound, ht, TimeLogs.total,
        Truck.entered_duration] ; ring
    · unfold Truck.transition_from_inbound
      cases Truck.get_available_station stations <;>
        simp [ht, TimeLogs.total, Truck.entered_duration] <;> ring

/-! ## C2: one cycle call of a truck -/

/-- The source's scan (skip BUSY, return the first non-BUSY station)
computes the spec's scan (return the first IDLE station): a station has
only the two states. -/
theorem get_available_station_eq_firstIdle :
    ∀ ss : List Station, Truck.get_available_station ss = firstIdleStation ss := by
  intro ss
  induction ss with
  | nil => rfl
  | cons s ss ih =>
      unfold Truck.get_available_station firstIdleStation
      cases hs : s.state <;> simp [hs, ih]

/-- C2 counterexample: a truck in IDLE with counter 0, given one BUSY
station, does transition to IDLE with the idle-wait duration as §4.1 says —
but it does not credit only the left state's accumulator: its
TRAVELING_TO_STATION accumulator jumps from 0 to the 30-minute inbound
travel duration it never spent, so the claimed complete description of
`cycle` ("takes exactly the transition ..., crediting the left state's
accumulator with that state's configured duration") is false here. -/
theorem C2_counterexample :
    ((⟨"t", ⟨0, 0, 0, 0, 0⟩, TruckStatus.IDLE, 0, 0, 60⟩ : Truck).cycle
        exampleCfg [{ Station.init "s" with state := StationStatus.BUSY }]
        exampleRng).1.state = TruckStatus.IDLE ∧
    ((⟨"t", ⟨0, 0, 0, 0, 0⟩, TruckStatus.IDLE, 0, 0, 60⟩ : Truck).cycle
        exampleCfg [{ Station.init "s" with state := StationStatus.BUSY }]
        exampleRng).1.remaining_time = exampleCfg.idle_wait_time ∧
    ((⟨"t", ⟨0, 0, 0, 0, 0⟩, TruckStatus.IDLE, 0, 0, 60⟩ : Truck).cycle
        exampleCfg [{ Station.init "s" with state := StationStatus.BUSY }]
        exampleRng).1.time_logs.IDLE = exampleCfg.idle_wait_time ∧
    ((⟨"t", ⟨0, 0, 0, 0, 0⟩, TruckStatus.IDLE, 0, 0, 60⟩ : Truck).cycle
        exampleCfg [{ Station.init "s" with state := StationStatus.BUSY }]
        exampleRng).1.time_logs.TRAVELING_TO_STATION ≠ 0 := by
  refine ⟨by decide, by decide, by decide, by decide⟩

/-- C2 amended: one `cycle` call behaves exactly as the claim says, except
that an exit from IDLE additionally credits the TRAVELING_TO_STATION
accumulator with the inbound travel duration.  Conjuncts: positive counter
decrements one slice and changes nothing else (truck, stations and RNG
otherwise untouched); with the counter at zero, each state takes the §4.1
transition, where the station scan is the first IDLE station of the list
in creation order, the found station has the truck attached, and the
left state's accumulator is credited with its entered-with duration. -/
theorem C2_amended_cycle_behavior (cfg : MiningRun) (t : Truck)
    (stations : List Station) (rng : Rng) :
    (0 < t.remaining_time →
      t.cycle cfg stations rng =
        ({ t with remaining_time := t.remaining_time - cfg.slice_time },
         stations, rng)) ∧
    (t.remaining_time = 0 → t.state = TruckStatus.MINING →
      t.cycle cfg stations rng =
        ({ t with
            time_logs := { t.time_logs with
              MINING := t.time_logs.MINING + t.current_cycle_mining_time },
            state := TruckStatus.TRAVELING_TO_STATION,
            remaining_time := cfg.inbound_travel_time }, stations, rng)) ∧
    (t.remaining_time = 0 → t.state = TruckStatus.UNLOADING →
      t.cycle cfg stations rng =
        ({ t with
            time_logs := { t.time_logs with
              UNLOADING := t.time_logs.UNLOADING + cfg.unloading_time },
            completed_loads := t.completed_loads + 1,
            state := TruckStatus.TRAVELING_TO_MINE,
            remaining_time := cfg.outbound_travel_time }, stations, rng)) ∧
    (t.remaining_time = 0 → t.state = TruckStatus.TRAVELING_TO_MINE →
      t.cycle cfg stations rng =
        ({ t with
            time_logs := { t.time_logs with
              TRAVELING_TO_MINE :=
                t.time_logs.TRAVELING_TO_MINE + cfg.outbound_travel_time },
            state := TruckStatus.MINING,
            remaining_time := rng.draws rng.pos * 60,
            current_cycle_mining_time := rng.draws rng.pos * 60 },
         stations, ⟨rng.draws, rng.pos + 1⟩)) ∧
    (t.remaining_time = 0 → t.state = TruckStatus.TRAVELING_TO_STATION →
      ∀ i, firstIdleStation stations = some i →
        t.cycle cfg stations rng =
          ({ t with
              time_logs := { t.time_logs with
                TRAVELING_TO_STATION :=
                  t.time_logs.TRAVELING_TO_STATION + cfg.inbound_travel_time },
              state := TruckStatus.UNLOADING,
              remaining_time := cfg.unloading_time },
           attachAt { t with
              time_logs := { t.time_logs with
                TRAVELING_TO_STATION :=
                  t.time_logs.TRAVELING_TO_STATION + cfg.inbound_travel_time } }
             stations i, rng)) ∧
    (t.remaining_time = 0 → t.state = TruckStatus.TRAVELING_TO_STATION →
      firstIdleStation stations = none →
        t.cycle cfg stations rng =
          ({ t with
              time_logs := { t.time_logs with
                TRAVELING_TO_STATION :=
                  t.time_logs.TRAVELING_TO_STATION + cfg.inbound_travel_time },
              state := TruckStatus.IDLE,
              remaining_time := cfg.idle_wait_time }, stations, rng)) ∧
    (t.remaining_time = 0 → t.state = TruckStatus.IDLE →
      ∀ i, firstIdleStation stations = some i →
        t.cycle cfg stations rng =
          ({ t with
              time_logs := { t.time_logs with
                IDLE := t.time_logs.IDLE + cfg.idle_wait_time,
                TRAVELING_TO_STATION :=
                  t.time_logs.TRAVELING_TO_STATION + cfg.inbound_travel_time },
              state := TruckStatus.UNLOADING,
              remaining_time := cfg.unloading_time },
           attachAt { t with
              time_logs := { t.time_logs with
                IDLE := t.time_logs.IDLE + cfg.idle_wait_time,
                TRAVELING_TO_STATION :=
                  t.time_logs.TRAVELING_TO_STATION + cfg.inbound_travel_time } }
             stations i, rng)) ∧
    (t.remaining_time = 0 → t.state = TruckStatus.IDLE →
      firstIdleStation stations = none →
        t.cycle cfg stations rng =
          ({ t with
              time_logs := { t.time_logs with
                IDLE := t.time_logs.IDLE + cfg.idle_wait_time,
                TRAVELING_TO_STATION :=
                  t.time_logs.TRAVELING_TO_STATION + cfg.inbound_travel_time },
              state := TruckStatus.IDLE,
              remaining_time := cfg.idle_wait_time }, stations, rng)) := by
  refine ⟨?_, ?_, ?_, ?_, ?_, ?_, ?_, ?_⟩
  · intro h
    unfold Truck.cycle
    rw [if_pos (by omega)]
  · intro h0 hs
    unfold Truck.cycle
    rw [if_neg (by omega)]
    simp [hs, Truck.transition_from_mining]
  · intro h0 hs
    unfold Truck.cycle
    rw [if_neg (by omega)]
    simp [hs, Truck.transition_from_unloading]
  · intro h0 hs
    unfold Truck.cycle
    rw [if_neg (by omega)]
    simp [hs, Truck.transition_from_outbound, MiningRun.generate_mining_time]
  · intro h0 hs i hi
    unfold Truck.cycle
    rw [if_neg (by omega)]
    unfold Truck.transition_from_inbound
    rw [get_available_station_eq_firstIdle]
    simp [hs, hi]
  · intro h0 hs hi
    unfold Truck.cycle
    rw [if_neg (by omega)]
    unfold Truck.transition_from_inbound
    rw [get_available_station_eq_firstIdle]
    simp [hs, hi]
  · intro h0 hs i hi
    unfold Truck.cycle
    rw [if_neg (by omega)]
    unfold Truck.transition_from_idle Truck.transition_from_inbound
    rw [get_available_station_eq_firstIdle]
    simp [hs, hi]
  · intro h0 hs hi
    unfold Truck.cycle
    rw [if_neg (by omega)]
    unfold Truck.transition_from_idle Truck.transition_from_inbound
    rw [get_available_station_eq_firstIdle]
    simp [hs, hi]

/-- Witness for C2 at concrete inputs: Scenario C (fresh MINING truck with
counter forced to 0 transitions to TRAVELING_TO_STATION with the inbound
travel duration) and a positive-counter decrement tick. -/
theorem C2_amended_cycle_behavior_witness :
    (⟨"t", ⟨0, 0, 0, 0, 0⟩, TruckStatus.MINING, 0, 0, 60⟩ : Truck).cycle
        exampleCfg [] exampleRng =
      ({ (⟨"t", ⟨0, 0, 0, 0, 0⟩, TruckStatus.MINING, 0, 0, 60⟩ : Truck) with
          time_logs := { (⟨0, 0, 0, 0, 0⟩ : TimeLogs) with
            MINING := 0 + 60 },
          state := TruckStatus.TRAVELING_TO_STATION,
          remaining_time := exampleCfg.inbound_travel_time }, [], exampleRng) ∧
    (⟨"t", ⟨0, 0, 0, 0, 0⟩, TruckStatus.MINING, 0, 60, 60⟩ : Truck).cycle
        exampleCfg [] exampleRng =
      ({ (⟨"t", ⟨0, 0, 0, 0, 0⟩, TruckStatus.MINING, 0, 60, 60⟩ : Truck) with
          remaining_time := 60 - exampleCfg.slice_time }, [], exampleRng) :=
  ⟨(C2_amended_cycle_behavior exampleCfg _ [] exampleRng).2.1 rfl rfl,
   (C2_amended_cycle_behavior exampleCfg _ [] exampleRng).1 (by decide)⟩

/-! ## C5: tick count -/

/-- C5 counterexample: with `slice_time = 7` and `run_hours = 7` the exact
quotient `run_hours*60/slice_minutes = 420/7 = 60` is an integer, yet the
scheduler runs `run_hours * int(60/slice) = 7 * 8 = 56` ticks; and with
`slice_time = 7, run_hours = 1` the quotient is not an integer yet nothing
is rejected — the simulation silently runs `8` ticks. -/
theorem C5_counterexample :
    ({ run_hours := 7, slice_time := 7 } : MiningRun).run_time_slices = 56 ∧
    (56 : ℤ) * 7 ≠ 7 * 60 ∧
    (run_simulation ({ run_hours := 7, slice_time := 7 } : MiningRun) [] []
        ⟨fun _ => 1, 0⟩).length = 56 ∧
    (run_simulation ({ run_hours := 1, slice_time := 7 } : MiningRun) [] []
        ⟨fun _ => 1, 0⟩).length = 8 := by
  refine ⟨by decide, by decide, ?_, ?_⟩ <;> decide

/-- C5 amended: the number of data rows the scheduler appends always equals
`run_hours * int(60/slice_time)` (truncated division); whenever the slice
divides 60 — as in the shipped configuration, slice 5 — this equals
`run_hours*60/slice_minutes` exactly.  No configuration is ever rejected:
a non-divisible slice silently truncates the tick count. -/
theorem C5_amended_tick_count (cfg : MiningRun) (stations : List Station)
    (trucks : List Truck) (rng : Rng) :
    (run_simulation cfg stations trucks rng).length
        = cfg.run_time_slices.toNat ∧
    (0 < cfg.slice_time → cfg.slice_time ∣ 60 →
      cfg.run_time_slices * cfg.slice_time = cfg.run_hours * 60) := by
  constructor
  · simp [run_simulation, time_slice_rows]
  · intro hpos hdvd
    unfold MiningRun.run_time_slices
    rw [Int.tdiv_eq_ediv_of_dvd hdvd, mul_assoc,
      Int.ediv_mul_cancel hdvd]

/-- Witness for C5 at the shipped configuration: a 1-hour run with slice 5
appends exactly 12 rows, and 12 × 5 = 60 = run_hours × 60. -/
theorem C5_amended_tick_count_witness :
    (run_simulation exampleCfg exampleState.stations exampleState.trucks
        exampleState.rng).length = exampleCfg.run_time_slices.toNat ∧
    exampleCfg.run_time_slices * exampleCfg.slice_time
      = exampleCfg.run_hours * 60 :=
  ⟨(C5_amended_tick_count exampleCfg exampleState.stations exampleState.trucks
      exampleState.rng).1,
   (C5_amended_tick_count exampleCfg exampleState.stations exampleState.trucks
      exampleState.rng).2 (by decide) (by decide)⟩

/-! ## C6: efficiency with zero trucks / zero stations -/

/-- C6: the source has no guard — computing the truck efficiency with zero
trucks, or the station efficiency with zero stations, divides by zero
(`ZeroDivisionError`) instead of returning the defined result the spec
requires. -/
theorem C6_zero_count_crashes :
    ({ num_trucks := 0, num_stations := 3, run_hours := 1,
        total_busy_truck_time := 0 } : MiningRun).generate_truck_efficiency
      = Except.error "ZeroDivisionError" ∧
    ({ num_stations := 0, num_trucks := 3, run_hours := 1,
        total_busy_station_time := 0 } : MiningRun).generate_station_efficiency
      = Except.error "ZeroDivisionError" :=
  ⟨rfl, rfl⟩

/-! ## C7: no construction-time validation -/

/-- C7: the source rejects nothing at construction/configuration time.
A configuration with a negative run length, negative counts, a duration
(unloading 5) that is not a multiple of the slice (7), and
`max_mining_hours < min_mining_hours` is accepted with every value stored
unchanged, and a run with it even proceeds (zero ticks for the negative
run length) instead of failing with a validation error. -/
theorem C7_no_validation :
    (initialize_simulation_definition ⟨-5, -1, -2, false, false⟩).run_hours = -5 ∧
    (initialize_simulation_definition ⟨-5, -1, -2, false, false⟩).num_trucks = -1 ∧
    (initialize_simulation_definition ⟨-5, -1, -2, false, false⟩).num_stations = -2 ∧
    ({ min_mining_hours := 5, max_mining_hours := 1, slice_time := 7,
        run_hours := 3 } : MiningRun).min_mining_hours = 5 ∧
    ({ min_mining_hours := 5, max_mining_hours := 1, slice_time := 7,
        run_hours := 3 } : MiningRun).max_mining_hours = 1 ∧
    ¬ ((7 : ℤ) ∣ ({ min_mining_hours := 5, max_mining_hours := 1,
                    slice_time := 7, run_hours := 3 } : MiningRun).unloading_time) ∧
    run_simulation (initialize_simulation_definition ⟨-5, -1, -2, false, false⟩)
        [] [] ⟨fun _ => 1, 0⟩ = [] := by
  refine ⟨rfl, rfl, rfl, rfl, rfl, by decide, by decide⟩

/-! ## C8: determinism -/

/-- C8: two runs with pairwise-identical configuration values and an
identical sequence of RNG draws (hence identical drawn mining durations)
produce identical time-series records: the engine is a pure function of
the configuration and the draw stream. -/
theorem C8_determinism (a b : Args) (r1 r2 : Rng)
    (h1 : a.run_hours = b.run_hours)
    (h2 : a.truck_count = b.truck_count)
    (h3 : a.station_count = b.station_count)
    (h4 : a.verbose_trucks = b.verbose_trucks)
    (h5 : a.verbose_stations = b.verbose_stations)
    (h6 : ∀ n, r1.draws n = r2.draws n)
    (h7 : r1.pos = r2.pos) :
    simulation_pipeline a r1 = simulation_pipeline b r2 := by
  have ha : a = b := by
    cases a; cases b
    simp_all
  have hr : r1 = r2 := by
    cases r1; cases r2
    simp only [Rng.mk.injEq]
    exact ⟨funext h6, h7⟩
  rw [ha, hr]

/-- Witness for C8: the example configuration run twice with two
syntactically different but pointwise-equal RNGs. -/
theorem C8_determinism_witness :
    simulation_pipeline ⟨1, 1, 1, false, false⟩ ⟨fun _ => 1, 0⟩
      = simulation_pipeline ⟨1, 1, 1, false, false⟩ ⟨fun n => 1 + 0 * n, 0⟩ :=
  C8_determinism ⟨1, 1, 1, false, false⟩ ⟨1, 1, 1, false, false⟩
    ⟨fun _ => 1, 0⟩ ⟨fun n => 1 + 0 * n, 0⟩
    rfl rfl rfl rfl rfl (fun n => by ring) rfl

/-! ## C9: efficiency percentages lie in [0,100] -/

theorem pyRound_nonneg (q : ℚ) (h : 0 ≤ q) : 0 ≤ pyRound q := by
  have hf : (0 : ℤ) ≤ ⌊q⌋ := Int.floor_nonneg.mpr h
  unfold pyRound
  split
  · exact hf
  · split
    · omega
    · split <;> omega

theorem pyRound_le (q : ℚ) (n : ℤ) (h : q ≤ (n : ℚ)) : pyRound q ≤ n := by
  have hf : ⌊q⌋ ≤ n := by
    have := Int.floor_le_floor h
    simpa using this
  unfold pyRound
  split
  · exact hf
  · rename_i h1
    have hlt : (⌊q⌋ : ℚ) < q := by
      have h2 : (1 : ℚ) / 2 ≤ q - ⌊q⌋ := le_of_not_lt h1
      linarith
    have hflt : ⌊q⌋ < n := by
      by_contra hc
      push_neg at hc
      have : (n : ℚ) ≤ (⌊q⌋ : ℚ) := by exact_mod_cast hc
      linarith
    split
    · omega
    · split <;> omega

theorem efficiency_ratio_bounds (B T M : ℤ) (hT : 0 < T) (hM : 0 < M)
    (hB0 : 0 ≤ B) (hB : B ≤ T * M) :
    0 ≤ 100 * ((B : ℚ) / T / M) ∧ 100 * ((B : ℚ) / T / M) ≤ 100 := by
  have hTq : (0 : ℚ) < T := by exact_mod_cast hT
  have hMq : (0 : ℚ) < M := by exact_mod_cast hM
  have hBq : (0 : ℚ) ≤ B := by exact_mod_cast hB0
  have hBq2 : (B : ℚ) ≤ (T : ℚ) * (M : ℚ) := by exact_mod_cast hB
  constructor
  · positivity
  · have h1 : (B : ℚ) / T / M ≤ 1 := by
      rw [div_div, div_le_one (by positivity)]
      exact hBq2
    linarith

/-- C9 counterexample: with 1 truck, 1 station and `run_hours = 0`, the
claim's hypotheses hold (counts non-zero, each busy total 0 ≤ count × total
run minutes 0), yet both efficiency computations divide by zero
(`run_minutes() = 0`) instead of yielding a percentage in [0,100]. -/
theorem C9_counterexample :
    ({ num_trucks := 1, num_stations := 1, run_hours := 0 } : MiningRun).num_trucks ≠ 0 ∧
    ({ num_trucks := 1, num_stations := 1, run_hours := 0 } : MiningRun).num_stations ≠ 0 ∧
    ({ num_trucks := 1, num_stations := 1, run_hours := 0 } : MiningRun).total_busy_truck_time
      ≤ ({ num_trucks := 1, num_stations := 1, run_hours := 0 } : MiningRun).num_trucks *
        ({ num_trucks := 1, num_stations := 1, run_hours := 0 } : MiningRun).run_minutes ∧
    ({ num_trucks := 1, num_stations := 1, run_hours := 0 } : MiningRun).total_busy_station_time
      ≤ ({ num_trucks := 1, num_stations := 1, run_hours := 0 } : MiningRun).num_stations *
        ({ num_trucks := 1, num_stations := 1, run_hours := 0 } : MiningRun).run_minutes ∧
    ({ num_trucks := 1, num_stations := 1, run_hours := 0 } : MiningRun).generate_truck_efficiency
      = Except.error "ZeroDivisionError" ∧
    ({ num_trucks := 1, num_stations := 1, run_hours := 0 } : MiningRun).generate_station_efficiency
      = Except.error "ZeroDivisionError" :=
  ⟨by decide, by decide, by decide, by decide, rfl, rfl⟩

/-- C9 amended: with positive counts, a positive run length, and
non-negative busy totals bounded by count × total run minutes (all true of
any actual run), both efficiency computations succeed and produce
percentages in [0,100]. -/
theorem C9_amended_efficiency_in_range (cfg : MiningRun)
    (htr : 0 < cfg.num_trucks) (hst : 0 < cfg.num_stations)
    (hrh : 0 < cfg.run_hours)
    (hbt0 : 0 ≤ cfg.total_busy_truck_time)
    (hbt : cfg.total_busy_truck_time ≤ cfg.num_trucks * cfg.run_minutes)
    (hbs0 : 0 ≤ cfg.total_busy_station_time)
    (hbs : cfg.total_busy_station_time ≤ cfg.num_stations * cfg.run_minutes) :
    ∃ p q : ℤ,
      cfg.generate_truck_efficiency = Except.ok p ∧ 0 ≤ p ∧ p ≤ 100 ∧
      cfg.generate_station_efficiency = Except.ok q ∧ 0 ≤ q ∧ q ≤ 100 := by
  have hM : 0 < cfg.run_minutes := by
    unfold MiningRun.run_minutes
    omega
  refine ⟨pyRound (100 * ((cfg.total_busy_truck_time : ℚ) /
      (cfg.num_trucks : ℚ) / (cfg.run_minutes : ℚ))),
    pyRound (100 * ((cfg.total_busy_station_time : ℚ) /
      (cfg.num_stations : ℚ) / (cfg.run_minutes : ℚ))),
    ?_, ?_, ?_, ?_, ?_, ?_⟩
  · unfold MiningRun.generate_truck_efficiency
    rw [if_neg (by omega), if_neg (by omega)]
  · exact pyRound_nonneg _
      (efficiency_ratio_bounds _ _ _ htr hM hbt0 hbt).1
  · refine pyRound_le _ 100 ?_
    have := (efficiency_ratio_bounds _ _ _ htr hM hbt0 hbt).2
    push_cast
    linarith
  · unfold MiningRun.generate_station_efficiency
    rw [if_neg (by omega), if_neg (by omega)]
  · exact pyRound_nonneg _
      (efficiency_ratio_bounds _ _ _ hst hM hbs0 hbs).1
  · refine pyRound_le _ 100 ?_
    have := (efficiency_ratio_bounds _ _ _ hst hM hbs0 hbs).2
    push_cast
    linarith

/-- Witness for C9 at a concrete summary: 2 trucks and 1 station over a
1-hour run with 60 busy-truck minutes and 30 busy-station minutes. -/
theorem C9_amended_efficiency_in_range_witness :
    ∃ p q : ℤ,
      ({ num_trucks := 2, num_stations := 1, run_hours := 1,
          total_busy_truck_time := 60, total_busy_station_time := 30 }
        : MiningRun).generate_truck_efficiency = Except.ok p ∧
      0 ≤ p ∧ p ≤ 100 ∧
      ({ num_trucks := 2, num_stations := 1, run_hours := 1,
          total_busy_truck_time := 60, total_busy_station_time := 30 }
        : MiningRun).generate_station_efficiency = Except.ok q ∧
      0 ≤ q ∧ q ≤ 100 :=
  C9_amended_efficiency_in_range
    { num_trucks := 2, num_stations := 1, run_hours := 1,
      total_busy_truck_time := 60, total_busy_station_time := 30 }
    (by decide) (by decide) (by decide) (by decide) (by decide)
    (by decide) (by decide)

end MoonMole
